import Mathlib

/-!
Verification of the AutoIntel.AI dashboard (src/app.py) and of the
self-update pipeline its specification describes.

The dashboard code (keyword chat responses, listing generation, VIN
decoding, the OpenAI client calls) is embedded shallowly below, straight
from src/app.py; effectful steps (HTTP calls, the OpenAI service) are
passed in as explicit outcome values, and in-place list mutation becomes
explicit state passing.

The snapshot / rollback / orchestrator subsystem the specification
describes has no implementation under src/, so it is modelled from the
specification text (each such definition is marked "Modelled from the
spec:").
-/

namespace AutoIntel

/-! ### Filesystem model -/

/-- A file path, as a plain string. -/
abbrev Path := String

/-- File content; `String` stands for the byte content, equality is
byte-identity. -/
abbrev Content := String

/-- A filesystem: an association list from paths to contents. -/
abbrev FS := List (Path × Content)

/-- Read the content of a file, `none` when the path does not exist. -/
def fsRead (fs : FS) (p : Path) : Option Content :=
  (fs.find? (fun e => e.1 == p)).map (fun e => e.2)

/-- Write (create or fully overwrite) the content of a file: the new entry
is prepended and shadows any older entry for the same path, since `fsRead`
returns the first match. -/
def fsWrite (fs : FS) (p : Path) (c : Content) : FS :=
  (p, c) :: fs

theorem fsRead_fsWrite (fs : FS) (p q : Path) (c : Content) :
    fsRead (fsWrite fs p c) q = if q = p then some c else fsRead fs q := by
  unfold fsRead fsWrite
  by_cases h : q = p
  · subst h
    simp [List.find?]
  · have hpq : (p == q) = false := by
      simp [beq_iff_eq]
      exact fun hh => h hh.symm
    simp [List.find?, hpq, if_neg h]

/-! ### Snapshot store (Modelled from the spec) -/

/-- Modelled from the spec: backup file name
`\x7bbasename(path)\x7d.\x7btimestamp\x7d.bak` placed under a backup
directory; no Snapshot Store exists under src/. -/
def backupName (p : Path) (ts : Nat) : Path :=
  "backups/" ++ p ++ "." ++ toString ts ++ ".bak"

theorem backupName_ne (p : Path) (ts : Nat) : backupName p ts ≠ p := by
  intro h
  have hlen := congrArg String.length h
  have h8 : "backups/".length = 8 := rfl
  have hdot : ".".length = 1 := rfl
  have hbak : ".bak".length = 4 := rfl
  simp only [backupName, String.length_append, h8, hdot, hbak] at hlen
  omega

/-- Modelled from the spec: `create_snapshot(path)` reads the artifact at
`path` and writes an identical copy under the backup name, returning the
reference together with the captured content; fails (`none`) when the
source is unreadable. The destination-unwritable failure is modelled by
the orchestrator's `snapshotWriteOk` flag. No Snapshot Store exists under
src/. -/
def create_snapshot (fs : FS) (p : Path) (ts : Nat) :
    Option (FS × Path × Content) :=
  match fsRead fs p with
  | none => none
  | some c => some (fsWrite fs (backupName p ts) c, backupName p ts, c)

/-- Modelled from the spec: `restore(snapshot_reference, path)` copies the
snapshot's content back onto `path`, fully overwriting existing content;
fails (`none`) when the snapshot cannot be read. No Snapshot Store exists
under src/. -/
def restore (fs : FS) (ref : Path) (p : Path) : Option FS :=
  match fsRead fs ref with
  | none => none
  | some c => some (fsWrite fs p c)

/-! ### Oracle client data (shared with the src/app.py embedding) -/

/-- A chat message, the embedding of the role/content dicts in
src/app.py. -/
structure ChatMsg where
  role : String
  content : String
deriving DecidableEq, Repr

/-- The message part of one completion choice; `content` is optional in
the service response. -/
structure RespMessage where
  content : Option String
deriving DecidableEq, Repr

/-- One completion choice of the service response. -/
structure RespChoice where
  message : RespMessage
deriving DecidableEq, Repr

/-- The service response body: a list of completion choices. -/
structure ChatResponse where
  choices : List RespChoice
deriving DecidableEq, Repr

/-- The single error kind every oracle-client failure is normalized to. -/
structure OracleError where
  detail : String
deriving DecidableEq, Repr

/-- Python's whitespace test for `str.strip()`: space, tab, newline,
carriage return, vertical tab, form feed. -/
def pyIsSpace (c : Char) : Bool :=
  c == ' ' || c == '\t' || c == '\n' || c == '\r' || c == '\x0b' || c == '\x0c'

/-- Embedding of Python `str.strip()`: drop leading and trailing
whitespace. -/
def pyStrip (s : String) : String :=
  ⟨((s.toList.dropWhile pyIsSpace).reverse.dropWhile pyIsSpace).reverse⟩

/-- Outcome of one request to the text-completion service, supplied as an
explicit input to the embedding: either a response body or one of the
transport-level failures (network, timeout, authentication, rate
limit). -/
inductive ServiceOutcome
  | ok (resp : ChatResponse)
  | netFailure
  | timedOut
  | authRejected
  | rateLimited
deriving DecidableEq, Repr

/-- Embedding of `ask_openai` (src/app.py lines 129-137): issues one
request and returns `response.choices[0].message.content.strip()`.  Every
failure — a transport failure raised by the client library, an empty
`choices` list (IndexError), or a `None` content (AttributeError on
`.strip()`) — surfaces as a single `OracleError`; the code has no retry
loop and touches no files. -/
def ask_openai (history : List ChatMsg) (service : ServiceOutcome) :
    Except OracleError String :=
  match service with
  | .ok resp =>
    match resp.choices.head? with
    | none => .error ⟨"IndexError: choices is empty"⟩
    | some ch =>
      match ch.message.content with
      | none => .error ⟨"AttributeError: content is None"⟩
      | some c => .ok (pyStrip c)
  | .netFailure => .error ⟨"APIConnectionError"⟩
  | .timedOut => .error ⟨"APITimeoutError"⟩
  | .authRejected => .error ⟨"AuthenticationError"⟩
  | .rateLimited => .error ⟨"RateLimitError"⟩

/-- True when the service outcome is one of the failure modes: a transport
failure, an empty `choices` list, or a missing completion field. -/
def isServiceFailure (s : ServiceOutcome) : Bool :=
  match s with
  | .ok resp =>
    match resp.choices.head? with
    | none => true
    | some ch => ch.message.content.isNone
  | _ => true

/-! ### Update orchestrator (Modelled from the spec) -/

/-- Modelled from the spec: the orchestrator state machine states.  No
orchestrator exists under src/. -/
inductive OrchState
  | IDLE
  | BACKED_UP
  | REWRITTEN
  | WRITTEN
  | ROLLED_BACK
  | FAILED_UNRECOVERABLE
deriving DecidableEq, Repr

/-- Modelled from the spec: the error taxonomy of the orchestrator run. -/
inductive RunError
  | precondition
  | snapshotError
  | oracleError
  | writeError
  | restoreError
  | writeAndRestoreError
deriving DecidableEq, Repr

/-- Instrumentation event: either a snapshot (backup file) creation or a
write to the live artifact path. -/
inductive FsEvent
  | snapshotCreated (ref : Path) (c : Content)
  | liveWrite (p : Path) (c : Content)
deriving DecidableEq, Repr

/-- Modelled from the spec: everything one orchestrator run depends on.
The oracle is a function from instruction and current content to the
enhanced content or an `OracleError`; the `snapshotWriteOk`, `writeOk`
and `restoreOk` flags model whether the respective filesystem operations
succeed. -/
structure Env where
  credential : Option String
  fs : FS
  artifactPath : Path
  timestamp : Nat
  instruction : String
  oracle : String → String → Except OracleError String
  snapshotWriteOk : Bool
  writeOk : Bool
  restoreOk : Bool

/-- Outcome of one orchestrator run: terminal state, final filesystem,
the instrumentation trace, the snapshot reference the run created (if
any), and the error detail. -/
structure RunResult where
  state : OrchState
  fs : FS
  trace : List FsEvent
  snapshotRef : Option Path
  err : Option RunError
deriving Repr

/-- Modelled from the spec: the "run self-update" operation.  Credential
is checked first (precondition failure in IDLE, zero side effects); then
the artifact is read (missing artifact is a precondition failure before
any backup); then exactly one snapshot is taken (failure is
FAILED_UNRECOVERABLE); then the oracle is called (failure rolls back);
then the new content is written atomically to the live path (failure
rolls back; write failure leaves the old content in place because the
write is temp-file-plus-rename).  A failing restore during rollback ends
FAILED_UNRECOVERABLE.  No orchestrator exists under src/. -/
def run_self_update (env : Env) : RunResult :=
  match env.credential with
  | none => ⟨.IDLE, env.fs, [], none, some .precondition⟩
  | some _ =>
    match fsRead env.fs env.artifactPath with
    | none => ⟨.FAILED_UNRECOVERABLE, env.fs, [], none, some .precondition⟩
    | some pre =>
      if env.snapshotWriteOk then
        let ref := backupName env.artifactPath env.timestamp
        let fs1 := fsWrite env.fs ref pre
        let ev1 : List FsEvent := [.snapshotCreated ref pre]
        match env.oracle env.instruction pre with
        | .error _ =>
          match (if env.restoreOk then restore fs1 ref env.artifactPath else none) with
          | some fs2 =>
            ⟨.ROLLED_BACK, fs2, ev1 ++ [.liveWrite env.artifactPath pre],
              some ref, some .oracleError⟩
          | none =>
            ⟨.FAILED_UNRECOVERABLE, fs1, ev1, some ref, some .restoreError⟩
        | .ok newC =>
          if env.writeOk then
            ⟨.WRITTEN, fsWrite fs1 env.artifactPath newC,
              ev1 ++ [.liveWrite env.artifactPath newC], some ref, none⟩
          else
            match (if env.restoreOk then restore fs1 ref env.artifactPath else none) with
            | some fs2 =>
              ⟨.ROLLED_BACK, fs2, ev1 ++ [.liveWrite env.artifactPath pre],
                some ref, some .writeError⟩
            | none =>
              ⟨.FAILED_UNRECOVERABLE, fs1, ev1, some ref,
                some .writeAndRestoreError⟩
      else
        ⟨.FAILED_UNRECOVERABLE, env.fs, [], none, some .snapshotError⟩

/-- Count of snapshot-creation events in a trace. -/
def countSnapshots (t : List FsEvent) : Nat :=
  t.countP (fun e => match e with
    | .snapshotCreated _ _ => true
    | _ => false)

/-- True when every live-artifact write in the trace is preceded by a
snapshot creation: the trace is empty or opens with a snapshot event. -/
def writesCovered (t : List FsEvent) : Bool :=
  match t with
  | [] => true
  | .snapshotCreated _ _ :: _ => true
  | .liveWrite _ _ :: _ => false

/-! ### Keyword chat (src/app.py lines 119-146) -/

/-- True when the pattern is an initial segment of the text, over
character lists. -/
def leadsWith : List Char → List Char → Bool
  | _, [] => true
  | [], _ :: _ => false
  | a :: as, b :: bs => a == b && leadsWith as bs

/-- Substring containment over character lists, the embedding of Python's
`in` on strings. -/
def hasSub : List Char → List Char → Bool
  | [], pat => pat.isEmpty
  | c :: rest, pat => leadsWith (c :: rest) pat || hasSub rest pat

/-- Embedding of Python `pat in t` for strings. -/
def strContains (t pat : String) : Bool :=
  hasSub t.toList pat.toList

/-- Embedding of Python `str.lower()`, over the character list. -/
def pyLower (s : String) : String :=
  ⟨s.toList.map Char.toLower⟩

/-- Embedding of `simple_keyword_response` (src/app.py lines 119-127):
lowercases the text and answers a canned reply when it contains "price",
"mileage", "hello" or "hi"; otherwise `none`. -/
def simple_keyword_response (text : String) : Option String :=
  let t := pyLower text
  if strContains t "price" then
    some "Prices fluctuate—see the Listings tab for up-to-date figures."
  else if strContains t "mileage" then
    some "Mileage impacts value—lower mileage often means higher price."
  else if strContains t "hello" || strContains t "hi" then
    some "Hello! How can I assist you with car listings today?"
  else none

/-- Embedding of the fall-through branch of `get_ai_response`
(src/app.py lines 143-146): the user message is appended to the history,
`ask_openai` is called on the grown history, and on success the assistant
reply is appended as well; when `ask_openai` raises, the history keeps
only the appended user message and the exception propagates. -/
def ai_fallback (user_msg : String) (history : List ChatMsg)
    (service : ServiceOutcome) :
    Except OracleError String × List ChatMsg :=
  let h1 := history ++ [⟨"user", user_msg⟩]
  match ask_openai h1 service with
  | .ok reply => (.ok reply, h1 ++ [⟨"assistant", reply⟩])
  | .error e => (.error e, h1)

/-- Embedding of `get_ai_response` (src/app.py lines 139-146).  The
walrus `if kr := simple_keyword_response(user_msg):` tests Python
truthiness, so an empty-string reply would fall through; the in-place
mutation of `history` becomes the returned list. -/
def get_ai_response (user_msg : String) (history : List ChatMsg)
    (service : ServiceOutcome) :
    Except OracleError String × List ChatMsg :=
  match simple_keyword_response user_msg with
  | some kr =>
    if kr = "" then ai_fallback user_msg history service
    else (.ok kr, history ++ [⟨"assistant", kr⟩])
  | none => ai_fallback user_msg history service

/-! ### Listing generation and the refresh diff (src/app.py lines 79-96
and 194-202) -/

/-- One bundle of random draws for a listing: the values
`random.choice` / `random.randint` / `random.uniform` produce in
`generate_random_car`.  Randomness is abstracted as a per-index draw
function supplied to the embedding; the price is kept abstract as a
natural number of cents. -/
structure RandDraw where
  make : String
  model : String
  year : Nat
  price : Nat
  mileage : Nat
  location : String
  vin : String
deriving Repr

/-- Embedding of `CarListing` (src/app.py lines 56-66). -/
structure CarListing where
  id : Nat
  make : String
  model : String
  year : Nat
  price : Nat
  mileage : Nat
  location : String
  vin : Option String
  image_url : Option String
  features : List String
deriving Repr

/-- Embedding of `generate_random_car` (src/app.py lines 80-93): fills
every field from the draw for index `i` and sets `id := i`. -/
def generate_random_car (draw : Nat → RandDraw) (i : Nat) : CarListing :=
  let d := draw i
  { id := i, make := d.make, model := d.model, year := d.year,
    price := d.price, mileage := d.mileage, location := d.location,
    vin := some d.vin,
    image_url := some ("https://source.unsplash.com/featured/?" ++ d.make
      ++ "," ++ d.model ++ ",car"),
    features := [] }

/-- Embedding of `generate_listings` (src/app.py lines 95-96):
`[generate_random_car(i) for i in range(1, n + 1)]`. -/
def generate_listings (draw : Nat → RandDraw) (n : Nat) : List CarListing :=
  (List.range' 1 n).map (generate_random_car draw)

/-- Embedding of the "new since last" diff (src/app.py lines 199-201):
current listings whose id is not among the previous ids. -/
def newSinceLast (current prev : List CarListing) : List CarListing :=
  current.filter (fun c => !((prev.map (fun l => l.id)).contains c.id))

/-- Embedding of the "removed/sold" diff (src/app.py lines 200-202):
previous listings whose id is not among the current ids. -/
def removedSold (current prev : List CarListing) : List CarListing :=
  prev.filter (fun c => !((current.map (fun l => l.id)).contains c.id))

/-! ### VIN decoding (src/app.py lines 68-74 and 98-110) -/

/-- One record of the registry response's `Results` list; each field is
`data.get(...)`, absent keys give `none`. -/
structure VinRecord where
  Make : Option String
  Model : Option String
  ModelYear : Option String
  BodyClass : Option String
deriving DecidableEq, Repr

/-- The HTTP response of the registry: whether `raise_for_status` passes,
and the optional `Results` list of the JSON body. -/
structure VinApiResponse where
  httpOk : Bool
  Results : Option (List VinRecord)
deriving DecidableEq, Repr

/-- Embedding of `VINDecodeResult` (src/app.py lines 68-74). -/
structure VINDecodeResult where
  VIN : String
  Make : Option String
  Model : Option String
  ModelYear : Option String
  BodyClass : Option String
  Error : Option String
deriving DecidableEq, Repr

/-- The exceptions `decode_vin` can raise: `requests.HTTPError` from
`raise_for_status`, or `IndexError` when the JSON carries an explicit
empty `Results` list and `[0]` is taken. -/
inductive DecodeFailure
  | httpError
  | indexError
deriving DecidableEq, Repr

/-- Embedding of `decode_vin` (src/app.py lines 99-110):
`raise_for_status`, then `resp.json().get("Results", [\x7b\x7d])[0]`,
then a `VINDecodeResult` built with `VIN=vin` and `Error=None`. -/
def decode_vin (vin : String) (resp : VinApiResponse) :
    Except DecodeFailure VINDecodeResult :=
  if !resp.httpOk then .error .httpError
  else
    match (resp.Results.getD [⟨none, none, none, none⟩]).head? with
    | none => .error .indexError
    | some data =>
      .ok ⟨vin, data.Make, data.Model, data.ModelYear, data.BodyClass, none⟩

/-! ### Concrete inputs used by witnesses and counterexamples -/

/-- A filesystem holding one artifact. -/
def fs1 : FS := [("app.py", "print('v1')")]

/-- An environment whose credential is absent: the run must fail in IDLE
with zero side effects. -/
def envNoCred : Env :=
  { credential := none, fs := fs1, artifactPath := "app.py",
    timestamp := 1, instruction := "improve",
    oracle := fun _ _ => Except.ok "print('v2')",
    snapshotWriteOk := true, writeOk := true, restoreOk := true }

/-- An environment in which every step succeeds: the run ends WRITTEN. -/
def envOk : Env :=
  { credential := some "sk-test", fs := fs1, artifactPath := "app.py",
    timestamp := 1, instruction := "improve",
    oracle := fun _ _ => Except.ok "print('v2')",
    snapshotWriteOk := true, writeOk := true, restoreOk := true }

/-- An environment whose oracle call times out: the run must roll back. -/
def envTimeout : Env :=
  { credential := some "sk-test", fs := fs1, artifactPath := "app.py",
    timestamp := 1, instruction := "improve",
    oracle := fun _ _ => Except.error ⟨"APITimeoutError"⟩,
    snapshotWriteOk := true, writeOk := true, restoreOk := true }

/-- A constant draw function for the listing generator. -/
def drawA : Nat → RandDraw :=
  fun _ => ⟨"Toyota", "Camry", 2020, 2500000, 40000, "New York, NY",
    "12345678901234567"⟩

/-! ### Claim theorems -/

/-- Claim C7: restore is idempotent for a fixed snapshot — restoring the
same snapshot twice in succession yields artifact content that is
identical after the first restore and after the second restore. -/
theorem restore_idempotent (fs fsA fsB : FS) (ref p : Path)
    (h1 : restore fs ref p = some fsA)
    (h2 : restore fsA ref p = some fsB) :
    fsRead fsA p = fsRead fsB p := by
  unfold restore at h1 h2
  cases hc : fsRead fs ref with
  | none => rw [hc] at h1; cases h1
  | some c =>
    rw [hc] at h1
    injection h1 with h1
    subst h1
    have href : fsRead (fsWrite fs p c) ref = some c := by
      rw [fsRead_fsWrite]
      by_cases h : ref = p
      · simp [h]
      · simp [h, hc]
    rw [href] at h2
    injection h2 with h2
    subst h2
    rw [fsRead_fsWrite, fsRead_fsWrite]
    simp

/-- Witness for C7 at a concrete filesystem: both restores are evaluated
and the contents agree. -/
theorem restore_idempotent_witness :
    fsRead [("app.py", "v0"), ("app.py", "v1"),
      ("backups/app.py.1.bak", "v0")] "app.py" =
    fsRead [("app.py", "v0"), ("app.py", "v0"), ("app.py", "v1"),
      ("backups/app.py.1.bak", "v0")] "app.py" :=
  restore_idempotent
    [("app.py", "v1"), ("backups/app.py.1.bak", "v0")] _ _
    "backups/app.py.1.bak" "app.py" rfl rfl

/-- Claim C10: whenever `decode_vin` returns normally, the result has
`VIN` equal to the input and `Error = none`; failures are signalled only
by raised exceptions (`raise_for_status` HTTP errors, or the IndexError
on an explicit empty `Results` list), never through the `Error` field. -/
theorem decode_vin_ok_shape (vin : String) (resp : VinApiResponse)
    (r : VINDecodeResult) :
    (decode_vin vin resp = Except.ok r → r.VIN = vin ∧ r.Error = none)
    ∧ (resp.httpOk = false →
        decode_vin vin resp = Except.error DecodeFailure.httpError)
    ∧ (resp.httpOk = true → resp.Results = some [] →
        decode_vin vin resp = Except.error DecodeFailure.indexError) := by
  refine ⟨?_, ?_, ?_⟩
  · intro h
    unfold decode_vin at h
    cases hok : resp.httpOk with
    | false => rw [hok] at h; cases h
    | true =>
      rw [hok] at h
      simp only [Bool.not_true] at h
      cases hh : (resp.Results.getD [⟨none, none, none, none⟩]).head? with
      | none => simp [hh] at h
      | some data =>
        simp [hh] at h
        rw [← h]
        exact ⟨rfl, rfl⟩
  · intro hok
    unfold decode_vin
    rw [hok]
    rfl
  · intro hok hres
    unfold decode_vin
    rw [hok, hres]
    rfl

/-- Witness for C10 at a concrete VIN and response: the decoded result
carries the input VIN and a `none` error. -/
theorem decode_vin_ok_shape_witness :
    (VINDecodeResult.mk "1HGCM82633A004352" (some "HONDA") none none none
      none).VIN = "1HGCM82633A004352" ∧
    (VINDecodeResult.mk "1HGCM82633A004352" (some "HONDA") none none none
      none).Error = none :=
  (decode_vin_ok_shape "1HGCM82633A004352"
    ⟨true, some [⟨some "HONDA", none, none, none⟩]⟩ _).1 rfl

/-- Claim C4: with the oracle credential absent, the self-update run
fails as a precondition failure in the IDLE state, before any snapshot,
with zero side effects: the filesystem is unchanged, the trace is empty
and no snapshot reference exists. -/
theorem missing_credential_idle (env : Env)
    (hcred : env.credential = none) :
    (run_self_update env).state = OrchState.IDLE ∧
    (run_self_update env).err = some RunError.precondition ∧
    (run_self_update env).fs = env.fs ∧
    (run_self_update env).trace = [] ∧
    (run_self_update env).snapshotRef = none := by
  simp [run_self_update, hcred]

/-- Witness for C4 at a concrete credential-less environment. -/
theorem missing_credential_idle_witness :
    (run_self_update envNoCred).state = OrchState.IDLE ∧
    (run_self_update envNoCred).err = some RunError.precondition ∧
    (run_self_update envNoCred).fs = envNoCred.fs ∧
    (run_self_update envNoCred).trace = [] ∧
    (run_self_update envNoCred).snapshotRef = none :=
  missing_credential_idle envNoCred rfl

/-- Claim C5 counterexample: the client does not return the completion
unmodified — for the completion `" x "` it returns the stripped `"x"`,
because `ask_openai` ends in `.strip()`. -/
theorem ask_openai_strips_cex :
    ask_openai [] (ServiceOutcome.ok ⟨[⟨⟨some " x "⟩⟩]⟩) =
      Except.ok "x" ∧ "x" ≠ " x " :=
  ⟨rfl, by decide⟩

/-- Claim C5 (amended): the client returns the service's completion text
with leading and trailing whitespace stripped (Python `.strip()`), and
applies no other transformation and no syntax validation. -/
theorem ask_openai_returns_stripped (hist : List ChatMsg)
    (resp : ChatResponse) (ch : RespChoice) (c : String)
    (h1 : resp.choices.head? = some ch)
    (h2 : ch.message.content = some c) :
    ask_openai hist (ServiceOutcome.ok resp) = Except.ok (pyStrip c) := by
  simp [ask_openai, h1, h2]

/-- Witness for amended C5 at a concrete completion. -/
theorem ask_openai_returns_stripped_witness :
    ask_openai [] (ServiceOutcome.ok ⟨[⟨⟨some " x "⟩⟩]⟩) =
      Except.ok (pyStrip " x ") :=
  ask_openai_returns_stripped [] ⟨[⟨⟨some " x "⟩⟩]⟩ ⟨⟨some " x "⟩⟩ " x "
    rfl rfl

/-- Claim C6: every oracle-client failure — network failure, timeout,
authentication rejection, rate limiting, or a response missing the
completion field — surfaces as the single error kind `OracleError`, and
every non-failure yields the stripped completion text. -/
theorem ask_openai_failure_kinds (hist : List ChatMsg)
    (s : ServiceOutcome) :
    (isServiceFailure s = true →
      ∃ e : OracleError, ask_openai hist s = Except.error e)
    ∧ (isServiceFailure s = false →
      ∃ c : String, ask_openai hist s = Except.ok (pyStrip c)) := by
  constructor
  · intro hfail
    cases s with
    | ok resp =>
      cases hh : resp.choices.head? with
      | none =>
        exact ⟨⟨"IndexError: choices is empty"⟩, by simp [ask_openai, hh]⟩
      | some ch =>
        cases hc : ch.message.content with
        | none =>
          exact ⟨⟨"AttributeError: content is None"⟩,
            by simp [ask_openai, hh, hc]⟩
        | some c => simp [isServiceFailure, hh, hc] at hfail
    | netFailure => exact ⟨_, rfl⟩
    | timedOut => exact ⟨_, rfl⟩
    | authRejected => exact ⟨_, rfl⟩
    | rateLimited => exact ⟨_, rfl⟩
  · intro hok
    cases s with
    | ok resp =>
      cases hh : resp.choices.head? with
      | none => simp [isServiceFailure, hh] at hok
      | some ch =>
        cases hc : ch.message.content with
        | none => simp [isServiceFailure, hh, hc] at hok
        | some c => exact ⟨c, by simp [ask_openai, hh, hc]⟩
    | netFailure => simp [isServiceFailure] at hok
    | timedOut => simp [isServiceFailure] at hok
    | authRejected => simp [isServiceFailure] at hok
    | rateLimited => simp [isServiceFailure] at hok

/-- Witness for C6 at a concrete failing outcome (timeout). -/
theorem ask_openai_failure_kinds_witness :
    ∃ e : OracleError,
      ask_openai [] ServiceOutcome.timedOut = Except.error e :=
  (ask_openai_failure_kinds [] ServiceOutcome.timedOut).1 rfl

/-- Claim C3: every run of the self-update operation that ends in the
WRITTEN terminal state leaves the artifact holding, byte for byte, the
content the oracle's enhance call returned for that run. -/
theorem written_matches_oracle (env : Env) (pre : Content)
    (hpre : fsRead env.fs env.artifactPath = some pre)
    (hstate : (run_self_update env).state = OrchState.WRITTEN) :
    ∃ newC, env.oracle env.instruction pre = Except.ok newC ∧
      fsRead (run_self_update env).fs env.artifactPath = some newC := by
  cases hcred : env.credential with
  | none => simp [run_self_update, hcred] at hstate
  | some k =>
    cases hsok : env.snapshotWriteOk with
    | false => simp [run_self_update, hcred, hpre, hsok] at hstate
    | true =>
      cases horacle : env.oracle env.instruction pre with
      | error e =>
        simp only [run_self_update, hcred, hpre, hsok, horacle,
          if_true] at hstate
        split at hstate <;> simp at hstate
      | ok newC =>
        cases hwok : env.writeOk with
        | true =>
          refine ⟨newC, rfl, ?_⟩
          simp [run_self_update, hcred, hpre, hsok, horacle, hwok,
            fsRead_fsWrite]
        | false =>
          simp [run_self_update, hcred, hpre, hsok, horacle, hwok]
            at hstate
          split at hstate <;> simp at hstate

/-- Witness for C3 at a concrete all-success environment. -/
theorem written_matches_oracle_witness :
    ∃ newC, envOk.oracle envOk.instruction "print('v1')" =
        Except.ok newC ∧
      fsRead (run_self_update envOk).fs envOk.artifactPath = some newC :=
  written_matches_oracle envOk "print('v1')" rfl rfl

/-- Claim C1: every attempt that ends ROLLED_BACK leaves the artifact
byte-identical to the pre-attempt content captured in the snapshot that
attempt created; and at the end of any attempt the artifact holds either
the full oracle-returned content or the full pre-attempt content, never
a mixture. -/
theorem rolled_back_restores (env : Env) (pre : Content)
    (hpre : fsRead env.fs env.artifactPath = some pre) :
    ((run_self_update env).state = OrchState.ROLLED_BACK →
      fsRead (run_self_update env).fs env.artifactPath = some pre ∧
      ∃ ref, (run_self_update env).snapshotRef = some ref ∧
        fsRead (run_self_update env).fs ref = some pre)
    ∧ (fsRead (run_self_update env).fs env.artifactPath = some pre ∨
       ∃ newC, env.oracle env.instruction pre = Except.ok newC ∧
         fsRead (run_self_update env).fs env.artifactPath = some newC) := by
  have hne : backupName env.artifactPath env.timestamp ≠ env.artifactPath :=
    backupName_ne env.artifactPath env.timestamp
  have hne' : env.artifactPath ≠ backupName env.artifactPath env.timestamp :=
    fun h => hne h.symm
  cases hcred : env.credential with
  | none =>
    constructor
    · intro hstate
      simp [run_self_update, hcred] at hstate
    · left
      simp [run_self_update, hcred, hpre]
  | some k =>
    cases hsok : env.snapshotWriteOk with
    | false =>
      constructor
      · intro hstate
        simp [run_self_update, hcred, hpre, hsok] at hstate
      · left
        simp [run_self_update, hcred, hpre, hsok]
    | true =>
      cases horacle : env.oracle env.instruction pre with
      | error e =>
        cases hrok : env.restoreOk with
        | true =>
          constructor
          · intro _
            constructor
            · simp [run_self_update, hcred, hpre, hsok, horacle, hrok,
                restore, fsRead_fsWrite, hne', fsRead_fsWrite]
            · refine ⟨backupName env.artifactPath env.timestamp, ?_, ?_⟩
              · simp [run_self_update, hcred, hpre, hsok, horacle, hrok,
                  restore, fsRead_fsWrite]
              · simp [run_self_update, hcred, hpre, hsok, horacle, hrok,
                  restore, fsRead_fsWrite, hne]
          · left
            simp [run_self_update, hcred, hpre, hsok, horacle, hrok,
              restore, fsRead_fsWrite, hne']
        | false =>
          constructor
          · intro hstate
            simp [run_self_update, hcred, hpre, hsok, horacle, hrok]
              at hstate
          · left
            simp [run_self_update, hcred, hpre, hsok, horacle, hrok,
              fsRead_fsWrite, hne']
      | ok newC =>
        cases hwok : env.writeOk with
        | true =>
          constructor
          · intro hstate
            simp [run_self_update, hcred, hpre, hsok, horacle, hwok]
              at hstate
          · right
            refine ⟨newC, rfl, ?_⟩
            simp [run_self_update, hcred, hpre, hsok, horacle, hwok,
              fsRead_fsWrite]
        | false =>
          cases hrok : env.restoreOk with
          | true =>
            constructor
            · intro _
              constructor
              · simp [run_self_update, hcred, hpre, hsok, horacle, hwok,
                  hrok, restore, fsRead_fsWrite, hne']
              · refine ⟨backupName env.artifactPath env.timestamp, ?_, ?_⟩
                · simp [run_self_update, hcred, hpre, hsok, horacle,
                    hwok, hrok, restore, fsRead_fsWrite]
                · simp [run_self_update, hcred, hpre, hsok, horacle,
                    hwok, hrok, restore, fsRead_fsWrite, hne]
            · left
              simp [run_self_update, hcred, hpre, hsok, horacle, hwok,
                hrok, restore, fsRead_fsWrite, hne']
          | false =>
            constructor
            · intro hstate
              simp [run_self_update, hcred, hpre, hsok, horacle, hwok,
                hrok] at hstate
            · left
              simp [run_self_update, hcred, hpre, hsok, horacle, hwok,
                hrok, fsRead_fsWrite, hne']

/-- Witness for C1 at a concrete environment whose oracle call times
out: the run rolls back and the artifact holds the pre-attempt bytes. -/
theorem rolled_back_restores_witness :
    fsRead (run_self_update envTimeout).fs envTimeout.artifactPath =
      some "print('v1')" ∧
    ∃ ref, (run_self_update envTimeout).snapshotRef = some ref ∧
      fsRead (run_self_update envTimeout).fs ref = some "print('v1')" :=
  (rolled_back_restores envTimeout "print('v1')" rfl).1 rfl

/-- Claim C2 counterexample: with the credential absent, an execution of
the update pipeline creates zero snapshots, not exactly one — the claim's
"exactly one snapshot per attempt, on every execution path including
failing ones" fails on precondition-failing executions. -/
theorem snapshot_ordering_cex :
    ¬ countSnapshots (run_self_update envNoCred).trace = 1 := by decide

/-- Claim C2 (amended): in every execution of the update pipeline at most
one snapshot is created, exactly one is created in every execution that
takes a snapshot at all (every execution that progresses past IDLE and
the snapshot step, i.e. records a snapshot reference), and on every
execution path — including failing ones — any write to the live artifact
path is strictly preceded by the snapshot's creation. -/
theorem snapshot_ordering (env : Env) :
    countSnapshots (run_self_update env).trace ≤ 1
    ∧ ((run_self_update env).snapshotRef.isSome = true →
        countSnapshots (run_self_update env).trace = 1)
    ∧ writesCovered (run_self_update env).trace = true := by
  cases hcred : env.credential with
  | none =>
    simp [run_self_update, hcred, countSnapshots, writesCovered]
  | some k =>
    cases hart : fsRead env.fs env.artifactPath with
    | none =>
      simp [run_self_update, hcred, hart, countSnapshots, writesCovered]
    | some pre =>
      cases hsok : env.snapshotWriteOk with
      | false =>
        simp [run_self_update, hcred, hart, hsok, countSnapshots,
          writesCovered]
      | true =>
        cases horacle : env.oracle env.instruction pre with
        | error e =>
          cases hrok : env.restoreOk with
          | true =>
            simp [run_self_update, hcred, hart, hsok, horacle, hrok,
              restore, fsRead_fsWrite, countSnapshots, writesCovered,
              List.countP_cons, List.countP_nil]
          | false =>
            simp [run_self_update, hcred, hart, hsok, horacle, hrok,
              countSnapshots, writesCovered, List.countP_cons,
              List.countP_nil]
        | ok newC =>
          cases hwok : env.writeOk with
          | true =>
            simp [run_self_update, hcred, hart, hsok, horacle, hwok,
              countSnapshots, writesCovered, List.countP_cons,
              List.countP_nil]
          | false =>
            cases hrok : env.restoreOk with
            | true =>
              simp [run_self_update, hcred, hart, hsok, horacle, hwok,
                hrok, restore, fsRead_fsWrite, countSnapshots,
                writesCovered, List.countP_cons, List.countP_nil]
            | false =>
              simp [run_self_update, hcred, hart, hsok, horacle, hwok,
                hrok, countSnapshots, writesCovered, List.countP_cons,
                List.countP_nil]

/-- Witness for amended C2 at a concrete all-success environment: the
run takes a snapshot and its trace holds exactly one snapshot event. -/
theorem snapshot_ordering_witness :
    countSnapshots (run_self_update envOk).trace = 1 :=
  (snapshot_ordering envOk).2.1 rfl

/-- Claim C8: `get_ai_response` mutates the history asymmetrically — it
matches exactly when the lowercased message contains "price", "mileage",
"hello" or "hi"; on a match only the canned assistant reply is appended
and the user message never is; on the non-matching path the user message
and then the assistant reply are appended, in that order. -/
theorem get_ai_response_history (msg : String) (hist : List ChatMsg)
    (s : ServiceOutcome) :
    ((simple_keyword_response msg).isSome = true ↔
      (strContains (pyLower msg) "price"
        || strContains (pyLower msg) "mileage"
        || strContains (pyLower msg) "hello"
        || strContains (pyLower msg) "hi") = true)
    ∧ (∀ kr, simple_keyword_response msg = some kr →
        (get_ai_response msg hist s).2 = hist ++ [⟨"assistant", kr⟩])
    ∧ (simple_keyword_response msg = none → ∀ reply,
        ask_openai (hist ++ [⟨"user", msg⟩]) s = Except.ok reply →
        (get_ai_response msg hist s).2 =
          hist ++ [⟨"user", msg⟩, ⟨"assistant", reply⟩]) := by
  refine ⟨?_, ?_, ?_⟩
  · simp only [simple_keyword_response]
    split_ifs with h1 h2 h3 <;> simp_all
  · intro kr hkr
    have hkr0 := hkr
    simp only [simple_keyword_response] at hkr
    have hne : kr ≠ "" := by
      split_ifs at hkr <;>
        first
          | (injection hkr with hkr; subst hkr; decide)
          | cases hkr
    simp [get_ai_response, hkr0, hne]
  · intro hnone reply hreply
    simp [get_ai_response, hnone, ai_fallback, hreply]

/-- Witness for C8 at a concrete matching message: only the canned
assistant reply is appended to the history. -/
theorem get_ai_response_history_witness :
    (get_ai_response "what is the price?" [] ServiceOutcome.timedOut).2 =
      [⟨"assistant",
        "Prices fluctuate—see the Listings tab for up-to-date figures."⟩] :=
  (get_ai_response_history "what is the price?" []
    ServiceOutcome.timedOut).2.1 _ (by decide)

/-- Claim C9: for every n ≥ 1, `generate_listings n` returns exactly n
listings whose ids are 1 through n in order, so after a refresh that
regenerates the same count the "new since last" and "removed/sold" diffs
computed by id set difference are both empty. -/
theorem generate_listings_ids (draw draw2 : Nat → RandDraw) (n : Nat)
    (h : 1 ≤ n) :
    (generate_listings draw n).length = n
    ∧ (generate_listings draw n).map (fun c => c.id) = List.range' 1 n
    ∧ newSinceLast (generate_listings draw2 n) (generate_listings draw n)
        = []
    ∧ removedSold (generate_listings draw2 n) (generate_listings draw n)
        = [] := by
  have hids : ∀ d : Nat → RandDraw,
      (generate_listings d n).map (fun c => c.id) = List.range' 1 n := by
    intro d
    simp [generate_listings, List.map_map]
    have : ((fun c : CarListing => c.id) ∘ generate_random_car d) =
        fun i => i := rfl
    rw [this]
    exact List.map_id' (List.range' 1 n)
  have hmem : ∀ (d : Nat → RandDraw) (c : CarListing),
      c ∈ generate_listings d n → c.id ∈ List.range' 1 n := by
    intro d c hc
    have : c.id ∈ (generate_listings d n).map (fun c => c.id) :=
      List.mem_map_of_mem _ hc
    rwa [hids d] at this
  refine ⟨?_, hids draw, ?_, ?_⟩
  · simp [generate_listings]
  · apply List.filter_eq_nil_iff.mpr
    intro c hc
    have := hmem draw2 c hc
    simp only [hids draw]
    simp [List.elem_iff, this]
  · apply List.filter_eq_nil_iff.mpr
    intro c hc
    have := hmem draw c hc
    simp only [hids draw2]
    simp [List.elem_iff, this]

/-- Witness for C9 at n = 3 with a concrete draw function. -/
theorem generate_listings_ids_witness :
    (generate_listings drawA 3).map (fun c => c.id) = List.range' 1 3 :=
  (generate_listings_ids drawA drawA 3 (by decide)).2.1

end AutoIntel
